import Mathlib

/-!
Shallow embedding of `playlist-manager.py`, a console playlist manager.

The program keeps an in-memory `List Song` and persists it to a JSON file
(`songs.json`) on every mutation.  Console I/O is modelled by passing the
already-read input strings explicitly; the persisted file is modelled as an
`Option Json` value (`none` = the file does not exist), holding the parsed
JSON document rather than its concrete byte serialization.
-/

namespace PlaylistManager

/-- JSON values as produced by `json.dump` and consumed by `json.load`
(only the constructors this program can produce or read are needed). -/
inductive Json where
  | str : String → Json
  | int : Int → Json
  | arr : List Json → Json
  | obj : List (String × Json) → Json

/-- Python dataclass `Song`: title, artist, play count.  `plays` is a Python
`int`, hence `Int` (values loaded from a file are not forced non-negative). -/
structure Song where
  title : String
  artist : String
  plays : Int
deriving DecidableEq, Repr

/-- Source constant `MIN_TITLE_LEN = 1`. -/
def MIN_TITLE_LEN : Nat := 1

/-- Source constant `MAX_TITLE_LEN = 90`. -/
def MAX_TITLE_LEN : Nat := 90

/-- Source constant `SAMPLE_DATA`: the five built-in sample songs. -/
def SAMPLE_DATA : List (String × String × Int) :=
  [("Shape of You", "Ed Sheeran", 1560),
   ("Blinding Lights", "The Weeknd", 1780),
   ("Bad Guy", "Billie Eilish", 1340),
   ("Dance Monkey", "Tones and I", 1120),
   ("Levitating", "Dua Lipa", 980)]

/-- The seeded list `[Song(*item) for item in SAMPLE_DATA]`. -/
def sampleSongs : List Song :=
  SAMPLE_DATA.map (fun x => Song.mk x.1 x.2.1 x.2.2)

/-- Python `dataclasses.asdict(s)`: the dict `{"title": ..., "artist": ..., "plays": ...}`. -/
def Song.asdict (s : Song) : Json :=
  Json.obj [("title", Json.str s.title), ("artist", Json.str s.artist),
            ("plays", Json.int s.plays)]

/-- Dictionary key lookup, `data[k]` on a JSON object. -/
def jsonLookup (fields : List (String × Json)) (k : String) : Option Json :=
  (fields.find? (fun kv => kv.1 == k)).map Prod.snd

/-- Source classmethod `Song.from_dict`: `cls(**data)`.  The keyword expansion succeeds exactly
when the dict's keys are among `title`, `artist`, `plays`, all three are
present, and the values have the field types; otherwise Python raises
(`TypeError`), modelled as `none`. -/
def Song.from_dict (j : Json) : Option Song :=
  match j with
  | Json.obj fields =>
    if fields.all (fun kv => kv.1 == "title" || kv.1 == "artist" || kv.1 == "plays") then
      match jsonLookup fields "title", jsonLookup fields "artist",
            jsonLookup fields "plays" with
      | some (Json.str t), some (Json.str a), some (Json.int p) => some (Song.mk t a p)
      | _, _, _ => none
    else none
  | _ => none

/-- Source function `save_songs`: `json.dump([asdict(s) for s in songs], f)` — the JSON
document written to the file. -/
def save_songs (songs : List Song) : Json :=
  Json.arr (songs.map Song.asdict)

/-- The comprehension `[Song.from_dict(d) for d in data]`: decode every element, failing if
any element fails (Python raises on the first bad element). -/
def decodeList : List Json → Option (List Song)
  | [] => some []
  | d :: rest =>
    match Song.from_dict d, decodeList rest with
    | some s, some ss => some (s :: ss)
    | _, _ => none

/-- Decoding the whole file body: `json.load` must yield a list (iterating a
non-list or decoding a bad element raises, modelled as `none`). -/
def load_decode (j : Json) : Option (List Song) :=
  match j with
  | Json.arr ds => decodeList ds
  | _ => none

/-- Source function `load_songs` over the file state.  Returns the decoded song list
(`none` = Python raised) and the file state after the call: on first run
(file absent) the sample data is saved and returned. -/
def load_songs (file : Option Json) : Option (List Song) × Option Json :=
  match file with
  | some j => (load_decode j, some j)
  | none => (some sampleSongs, some (save_songs sampleSongs))

/-- Python `str.strip()`: drop whitespace from both ends (written over the
character list so it computes by structural recursion). -/
def pyStrip (s : String) : String :=
  String.mk (((s.data.dropWhile Char.isWhitespace).reverse.dropWhile
      Char.isWhitespace).reverse)

/-- Python `str.lower()` (ASCII fragment, character-wise). -/
def pyLower (s : String) : String :=
  String.mk (s.data.map Char.toLower)

/-- One acceptance test of `validate_text` on one raw input line:
`txt = input(prompt).strip()`, accepted iff
`MIN_TITLE_LEN <= len(txt) <= MAX_TITLE_LEN`. -/
def validate_text (input : String) : Option String :=
  if MIN_TITLE_LEN ≤ (pyStrip input).length ∧ (pyStrip input).length ≤ MAX_TITLE_LEN
  then some (pyStrip input) else none

/-- Source regex `VALID_INT_PATTERN = re.compile(r"^\d+$")` applied to a candidate
string: nonempty and all digits. -/
def matchesIntPattern (txt : String) : Bool :=
  !txt.data.isEmpty && txt.data.all Char.isDigit

/-- Python `int(txt)` on a digit string. -/
def digitsToNat (txt : String) : Nat :=
  txt.data.foldl (fun acc c => 10 * acc + (c.toNat - 48)) 0

/-- One acceptance test of `validate_int` on one raw input line:
accepted iff the stripped input matches `^\d+$`, returning `int(txt)`. -/
def validate_int (input : String) : Option Int :=
  if matchesIntPattern (pyStrip input)
  then some (Int.ofNat (digitsToNat (pyStrip input))) else none

/-- The `while True` re-prompt loop of `validate_text`, fed by the stream of
input lines; returns the first accepted value and the unconsumed lines. -/
def validate_text_loop : List String → Option (String × List String)
  | [] => none
  | x :: rest =>
    match validate_text x with
    | some t => some (t, rest)
    | none => validate_text_loop rest

/-- The `while True` re-prompt loop of `validate_int`. -/
def validate_int_loop : List String → Option (Int × List String)
  | [] => none
  | x :: rest =>
    match validate_int x with
    | some n => some (n, rest)
    | none => validate_int_loop rest

/-- The per-song test of `find_song`:
`s.title.lower() == title.lower() and s.artist.lower() == artist.lower()`. -/
def songMatches (s : Song) (title artist : String) : Bool :=
  pyLower s.title == pyLower title && pyLower s.artist == pyLower artist

/-- Source function `find_song`: first song matching title and artist case-insensitively. -/
def find_song (songs : List Song) (title artist : String) : Option Song :=
  songs.find? (fun s => songMatches s title artist)

/-- Source function `add_song` after its two `validate_text` calls returned `title`/`artist`
and (when reached) `validate_int` returned `plays`: on a duplicate it
returns without touching list or file; otherwise it appends and saves. -/
def add_song (songs : List Song) (file : Option Json) (title artist : String)
    (plays : Int) : List Song × Option Json :=
  if (find_song songs title artist).isSome then (songs, file)
  else
    let songs' := songs ++ [Song.mk title artist plays]
    (songs', some (save_songs songs'))

/-- Source function `add_song` driven by the raw input-line stream, exactly in source order:
title, artist, duplicate check, then (only if not duplicate) plays.
`none` = the input stream ran out inside a re-prompt loop. -/
def add_song_run (songs : List Song) (file : Option Json) (inputs : List String) :
    Option (List Song × Option Json) :=
  match validate_text_loop inputs with
  | none => none
  | some (title, r1) =>
    match validate_text_loop r1 with
    | none => none
    | some (artist, r2) =>
      if (find_song songs title artist).isSome then some (songs, file)
      else
        match validate_int_loop r2 with
        | none => none
        | some (plays, _) =>
          let songs' := songs ++ [Song.mk title artist plays]
          some (songs', some (save_songs songs'))

/-- The assignment `song.plays = new_plays` on the object returned by `find_song`: update
the `plays` field of the first matching song in place. -/
def editFirst (songs : List Song) (title artist : String) (newPlays : Int) :
    List Song :=
  match songs with
  | [] => []
  | s :: rest =>
    if songMatches s title artist then Song.mk s.title s.artist newPlays :: rest
    else s :: editFirst rest title artist newPlays

/-- Source function `edit_song` after its input validation: not-found returns without
mutating; otherwise the found song's `plays` is updated and the list saved. -/
def edit_song (songs : List Song) (file : Option Json) (title artist : String)
    (new_plays : Int) : List Song × Option Json :=
  match find_song songs title artist with
  | none => (songs, file)
  | some _ =>
    let songs' := editFirst songs title artist new_plays
    (songs', some (save_songs songs'))

/-- Python `list.remove(song)`: remove the first element `==` (field-wise equal) to
`song`; on an absent element Python raises, here the list is returned
unchanged (`delete_song` only calls it with a member). -/
def pyRemove (songs : List Song) (song : Song) : List Song :=
  match songs with
  | [] => []
  | s :: rest => if s = song then rest else s :: pyRemove rest song

/-- Source function `delete_song` after its input validation: not-found returns without
mutating; otherwise the found song is removed and the list saved. -/
def delete_song (songs : List Song) (file : Option Json) (title artist : String) :
    List Song × Option Json :=
  match find_song songs title artist with
  | none => (songs, file)
  | some song =>
    let songs' := pyRemove songs song
    (songs', some (save_songs songs'))

/-- Source function `generate_playlist` after `validate_int` returned `min_plays`:
`[s for s in songs if s.plays >= min_plays]`. -/
def generate_playlist (songs : List Song) (min_plays : Int) : List Song :=
  songs.filter (fun s => min_plays ≤ s.plays)

/-! ## Helper lemmas (shared between the claim theorems) -/

/-- Decoding a serialized song recovers it. -/
lemma from_dict_asdict (s : Song) : Song.from_dict (Song.asdict s) = some s := rfl

/-- Decoding a serialized song list recovers it. -/
lemma decodeList_map_asdict (songs : List Song) :
    decodeList (songs.map Song.asdict) = some songs := by
  induction songs with
  | nil => rfl
  | cons s rest ih => simp [decodeList, from_dict_asdict, ih]

/-- Accepted text inputs satisfy the length bounds. -/
lemma validate_text_some_bounds (raw : String) (t : String)
    (h : validate_text raw = some t) :
    MIN_TITLE_LEN ≤ t.length ∧ t.length ≤ MAX_TITLE_LEN := by
  unfold validate_text at h
  split at h
  · cases h
    assumption
  · cases h

/-- Text values produced by the re-prompt loop satisfy the length bounds. -/
lemma validate_text_loop_bounds (inputs : List String) (t : String)
    (rest : List String) (h : validate_text_loop inputs = some (t, rest)) :
    MIN_TITLE_LEN ≤ t.length ∧ t.length ≤ MAX_TITLE_LEN := by
  induction inputs generalizing rest with
  | nil => cases h
  | cons x xs ih =>
    unfold validate_text_loop at h
    cases hx : validate_text x with
    | some v =>
      rw [hx] at h
      cases h
      exact validate_text_some_bounds x _ hx
    | none =>
      rw [hx] at h
      exact ih rest h

/-- Accepted integer inputs are non-negative. -/
lemma validate_int_some_nonneg (raw : String) (p : Int)
    (h : validate_int raw = some p) : 0 ≤ p := by
  unfold validate_int at h
  split at h
  · cases h
    exact Int.ofNat_nonneg _
  · cases h

/-- Integer values produced by the re-prompt loop are non-negative. -/
lemma validate_int_loop_nonneg (inputs : List String) (p : Int)
    (rest : List String) (h : validate_int_loop inputs = some (p, rest)) :
    0 ≤ p := by
  induction inputs generalizing rest with
  | nil => cases h
  | cons x xs ih =>
    unfold validate_int_loop at h
    cases hx : validate_int x with
    | some v =>
      rw [hx] at h
      cases h
      exact validate_int_some_nonneg x p hx
    | none =>
      rw [hx] at h
      exact ih rest h

/-- On a duplicate, `add_song` returns with list and file untouched. -/
lemma add_song_of_dup (songs : List Song) (file : Option Json)
    (title artist : String) (plays : Int)
    (h : (find_song songs title artist).isSome = true) :
    add_song songs file title artist plays = (songs, file) := by
  simp [add_song, h]

/-- On not-found, `edit_song` returns with list and file untouched. -/
lemma edit_song_of_none (songs : List Song) (file : Option Json)
    (title artist : String) (new_plays : Int)
    (h : find_song songs title artist = none) :
    edit_song songs file title artist new_plays = (songs, file) := by
  simp [edit_song, h]

/-- On not-found, `delete_song` returns with list and file untouched. -/
lemma delete_song_of_none (songs : List Song) (file : Option Json)
    (title artist : String) (h : find_song songs title artist = none) :
    delete_song songs file title artist = (songs, file) := by
  simp [delete_song, h]

/-- On an invalid line, the text re-prompt loop just moves to the next line. -/
lemma validate_text_loop_skips (raw : String) (rest : List String)
    (h : validate_text raw = none) :
    validate_text_loop (raw :: rest) = validate_text_loop rest := by
  simp [validate_text_loop, h]

/-- On an invalid line, the int re-prompt loop just moves to the next line. -/
lemma validate_int_loop_skips (raw : String) (rest : List String)
    (h : validate_int raw = none) :
    validate_int_loop (raw :: rest) = validate_int_loop rest := by
  simp [validate_int_loop, h]

/-- With no match in `pre` and a match at `old`, `find_song` finds `old`. -/
lemma find_song_split (pre : List Song) (old : Song) (post : List Song)
    (title artist : String)
    (hpre : ∀ s ∈ pre, songMatches s title artist = false)
    (hold : songMatches old title artist = true) :
    find_song (pre ++ old :: post) title artist = some old := by
  induction pre with
  | nil => simp [find_song, List.find?, hold]
  | cons s rest ih =>
    have hs := hpre s (by simp)
    have hrest : ∀ s' ∈ rest, songMatches s' title artist = false :=
      fun s' hs' => hpre s' (by simp [hs'])
    simpa [find_song, List.find?, hs] using ih hrest

/-- With no match in `pre` and a match at `old`, `editFirst` rewrites `old`. -/
lemma editFirst_split (pre : List Song) (old : Song) (post : List Song)
    (title artist : String) (p : Int)
    (hpre : ∀ s ∈ pre, songMatches s title artist = false)
    (hold : songMatches old title artist = true) :
    editFirst (pre ++ old :: post) title artist p =
      pre ++ Song.mk old.title old.artist p :: post := by
  induction pre with
  | nil => simp [editFirst, hold]
  | cons s rest ih =>
    have hs := hpre s (by simp)
    have hrest : ∀ s' ∈ rest, songMatches s' title artist = false :=
      fun s' hs' => hpre s' (by simp [hs'])
    simp [editFirst, hs, ih hrest]

/-- Removal of an element not occurring in `pre` drops its first occurrence. -/
lemma pyRemove_split (pre : List Song) (old : Song) (post : List Song)
    (hpre : ∀ s ∈ pre, s ≠ old) :
    pyRemove (pre ++ old :: post) old = pre ++ post := by
  induction pre with
  | nil => simp [pyRemove]
  | cons s rest ih =>
    have hs := hpre s (by simp)
    have hrest : ∀ s' ∈ rest, s' ≠ old := fun s' hs' => hpre s' (by simp [hs'])
    simp [pyRemove, hs, ih hrest]

/-! ## Claim theorems -/

/-- C1: for every playlist and every threshold, `generate_playlist` selects
exactly the songs whose `plays` is at least the threshold, keeps them in
their original list order (sublist), and includes no others. -/
theorem generate_playlist_selects_exactly_min_plays (songs : List Song)
    (min_plays : Int) :
    (generate_playlist songs min_plays).Sublist songs ∧
    ∀ s : Song, s ∈ generate_playlist songs min_plays ↔
      (s ∈ songs ∧ min_plays ≤ s.plays) := by
  constructor
  · exact List.filter_sublist songs
  · intro s
    simp [generate_playlist]

/-- C2: when the entered (title, artist) pair matches an existing song
case-insensitively, `add_song` rejects the insertion: the in-memory list and
the file are unchanged. -/
theorem add_song_rejects_case_insensitive_duplicate (songs : List Song)
    (file : Option Json) (title artist : String) (plays : Int)
    (h : (find_song songs title artist).isSome = true) :
    add_song songs file title artist plays = (songs, file) :=
  add_song_of_dup songs file title artist plays h

/-- Witness for C2: adding "bad guy" / "BILLIE EILISH" over an existing
"Bad Guy" / "Billie Eilish" entry changes nothing. -/
theorem add_song_rejects_case_insensitive_duplicate_witness :
    (find_song [Song.mk "Bad Guy" "Billie Eilish" 5] "bad guy" "BILLIE EILISH").isSome
        = true ∧
    add_song [Song.mk "Bad Guy" "Billie Eilish" 5] none "bad guy" "BILLIE EILISH" 7
        = ([Song.mk "Bad Guy" "Billie Eilish" 5], none) :=
  ⟨by decide,
   add_song_rejects_case_insensitive_duplicate
     [Song.mk "Bad Guy" "Billie Eilish" 5] none "bad guy" "BILLIE EILISH" 7 (by decide)⟩

/-- C3: when the entered (title, artist) pair matches no song
case-insensitively, `edit_song` and `delete_song` both leave the in-memory
list and the persisted file unchanged (the save step is not reached). -/
theorem edit_delete_nonexistent_leave_state_unchanged (songs : List Song)
    (file : Option Json) (title artist : String) (new_plays : Int)
    (h : find_song songs title artist = none) :
    edit_song songs file title artist new_plays = (songs, file) ∧
    delete_song songs file title artist = (songs, file) :=
  ⟨edit_song_of_none songs file title artist new_plays h,
   delete_song_of_none songs file title artist h⟩

/-- Witness for C3: editing or deleting an absent song over a one-song list
leaves the list and file alone. -/
theorem edit_delete_nonexistent_leave_state_unchanged_witness :
    find_song [Song.mk "Bad Guy" "Billie Eilish" 5] "Nope" "Nobody" = none ∧
    (edit_song [Song.mk "Bad Guy" "Billie Eilish" 5]
        (some (save_songs [Song.mk "Bad Guy" "Billie Eilish" 5])) "Nope" "Nobody" 9
      = ([Song.mk "Bad Guy" "Billie Eilish" 5],
         some (save_songs [Song.mk "Bad Guy" "Billie Eilish" 5])) ∧
     delete_song [Song.mk "Bad Guy" "Billie Eilish" 5]
        (some (save_songs [Song.mk "Bad Guy" "Billie Eilish" 5])) "Nope" "Nobody"
      = ([Song.mk "Bad Guy" "Billie Eilish" 5],
         some (save_songs [Song.mk "Bad Guy" "Billie Eilish" 5]))) :=
  ⟨by decide,
   edit_delete_nonexistent_leave_state_unchanged
     [Song.mk "Bad Guy" "Billie Eilish" 5]
     (some (save_songs [Song.mk "Bad Guy" "Billie Eilish" 5])) "Nope" "Nobody" 9
     (by decide)⟩

/-- C4: saving any song list and loading it back returns a list equal to the
original — same length, order, and fields — with the file left as saved. -/
theorem save_then_load_round_trip (songs : List Song) :
    load_songs (some (save_songs songs)) = (some songs, some (save_songs songs)) := by
  simp [load_songs, load_decode, save_songs, decodeList_map_asdict]

/-- C5: after every successful mutation — append by `add_song`, plays update
by `edit_song`, removal by `delete_song` — the persisted file holds exactly
the JSON serialization of the current in-memory list: an array of objects
with fields title, artist, plays, in list order. -/
theorem mutation_persists_serialized_current_list (songs : List Song)
    (file : Option Json) (title artist : String) (p : Int) :
    (find_song songs title artist = none →
      (add_song songs file title artist p).2 =
        some (Json.arr ((add_song songs file title artist p).1.map (fun s =>
          Json.obj [("title", Json.str s.title), ("artist", Json.str s.artist),
                    ("plays", Json.int s.plays)])))) ∧
    ((find_song songs title artist).isSome = true →
      (edit_song songs file title artist p).2 =
        some (Json.arr ((edit_song songs file title artist p).1.map (fun s =>
          Json.obj [("title", Json.str s.title), ("artist", Json.str s.artist),
                    ("plays", Json.int s.plays)]))) ∧
      (delete_song songs file title artist).2 =
        some (Json.arr ((delete_song songs file title artist).1.map (fun s =>
          Json.obj [("title", Json.str s.title), ("artist", Json.str s.artist),
                    ("plays", Json.int s.plays)])))) := by
  refine ⟨fun hn => ?_, fun hs => ?_⟩
  · simp [add_song, hn, save_songs, Song.asdict]
  · obtain ⟨s0, hs0⟩ := Option.isSome_iff_exists.mp hs
    refine ⟨?_, ?_⟩
    · simp [edit_song, hs0, save_songs, Song.asdict]
    · simp [delete_song, hs0, save_songs, Song.asdict]

/-- Witness for C5: each of the three mutations leaves the file holding the
serialization of its resulting list. -/
theorem mutation_persists_serialized_current_list_witness :
    (add_song [] none "Song A" "Artist A" 3).2 =
      some (Json.arr [Json.obj [("title", Json.str "Song A"),
        ("artist", Json.str "Artist A"), ("plays", Json.int 3)]]) ∧
    (edit_song [Song.mk "Song A" "Artist A" 1] none "song a" "ARTIST A" 9).2 =
      some (Json.arr [Json.obj [("title", Json.str "Song A"),
        ("artist", Json.str "Artist A"), ("plays", Json.int 9)]]) ∧
    (delete_song [Song.mk "Song A" "Artist A" 1] none "song a" "ARTIST A").2 =
      some (Json.arr []) := by
  have h1 := mutation_persists_serialized_current_list [] none "Song A" "Artist A" 3
  have h2 := mutation_persists_serialized_current_list
    [Song.mk "Song A" "Artist A" 1] none "song a" "ARTIST A" 9
  exact ⟨h1.1 (by decide), (h2.2 (by decide)).1, (h2.2 (by decide)).2⟩

/-- C6: any song that `add_song` inserts (running from the raw input lines,
which pass through `validate_text` and `validate_int`) has title and artist
of length between `MIN_TITLE_LEN` and `MAX_TITLE_LEN` and a non-negative
play count; all other songs in the resulting list were already present. -/
theorem add_song_run_inserted_song_within_bounds (songs : List Song)
    (file : Option Json) (inputs : List String) (songs' : List Song)
    (file' : Option Json) (h : add_song_run songs file inputs = some (songs', file')) :
    ∀ s ∈ songs', s ∈ songs ∨
      (MIN_TITLE_LEN ≤ s.title.length ∧ s.title.length ≤ MAX_TITLE_LEN ∧
       MIN_TITLE_LEN ≤ s.artist.length ∧ s.artist.length ≤ MAX_TITLE_LEN ∧
       0 ≤ s.plays) := by
  unfold add_song_run at h
  cases h1 : validate_text_loop inputs with
  | none => rw [h1] at h; cases h
  | some v1 =>
    obtain ⟨t, r1⟩ := v1
    rw [h1] at h
    dsimp only at h
    cases h2 : validate_text_loop r1 with
    | none => rw [h2] at h; cases h
    | some v2 =>
      obtain ⟨a, r2⟩ := v2
      rw [h2] at h
      dsimp only at h
      by_cases hd : (find_song songs t a).isSome = true
      · rw [if_pos hd] at h
        cases h
        exact fun s hs => Or.inl hs
      · rw [if_neg hd] at h
        cases h3 : validate_int_loop r2 with
        | none => rw [h3] at h; cases h
        | some v3 =>
          obtain ⟨p, r3⟩ := v3
          rw [h3] at h
          cases h
          intro s hs
          rcases List.mem_append.mp hs with hmem | hmem
          · exact Or.inl hmem
          · have hseq : s = Song.mk t a p := by simpa using hmem
            subst hseq
            obtain ⟨htl, htu⟩ := validate_text_loop_bounds inputs t r1 h1
            obtain ⟨hal, hau⟩ := validate_text_loop_bounds r1 a r2 h2
            have hp := validate_int_loop_nonneg r2 p r3 h3
            exact Or.inr ⟨htl, htu, hal, hau, hp⟩

/-- Witness for C6: inserting from the raw lines "Song A", "Artist A", "42"
produces a single new song, and it lies within the field bounds. -/
theorem add_song_run_inserted_song_within_bounds_witness :
    add_song_run [] none ["Song A", "Artist A", "42"] =
      some ([Song.mk "Song A" "Artist A" 42],
            some (save_songs [Song.mk "Song A" "Artist A" 42])) ∧
    ∀ s ∈ [Song.mk "Song A" "Artist A" 42], s ∈ ([] : List Song) ∨
      (MIN_TITLE_LEN ≤ s.title.length ∧ s.title.length ≤ MAX_TITLE_LEN ∧
       MIN_TITLE_LEN ≤ s.artist.length ∧ s.artist.length ≤ MAX_TITLE_LEN ∧
       0 ≤ s.plays) :=
  ⟨rfl, add_song_run_inserted_song_within_bounds [] none
    ["Song A", "Artist A", "42"] [Song.mk "Song A" "Artist A" 42]
    (some (save_songs [Song.mk "Song A" "Artist A" 42])) rfl⟩

/-- C7: every error is handled without persisting state or propagating: an
invalid-length line makes the text loop re-prompt on the next line, a
non-integer line makes the int loop re-prompt on the next line, a duplicate
makes `add_song` return with list and file untouched, and not-found makes
`edit_song` and `delete_song` return with list and file untouched. -/
theorem errors_reprompt_and_preserve_state (raw : String) (rest : List String)
    (songs : List Song) (file : Option Json) (title artist : String) (p : Int) :
    (validate_text raw = none →
       validate_text_loop (raw :: rest) = validate_text_loop rest) ∧
    (validate_int raw = none →
       validate_int_loop (raw :: rest) = validate_int_loop rest) ∧
    ((find_song songs title artist).isSome = true →
       add_song songs file title artist p = (songs, file)) ∧
    (find_song songs title artist = none →
       edit_song songs file title artist p = (songs, file) ∧
       delete_song songs file title artist = (songs, file)) :=
  ⟨validate_text_loop_skips raw rest,
   validate_int_loop_skips raw rest,
   add_song_of_dup songs file title artist p,
   fun h => ⟨edit_song_of_none songs file title artist p h,
             delete_song_of_none songs file title artist h⟩⟩

/-- Witness for C7: concrete instances of all four error kinds. -/
theorem errors_reprompt_and_preserve_state_witness :
    validate_text_loop ["", "x"] = validate_text_loop ["x"] ∧
    validate_int_loop ["abc", "3"] = validate_int_loop ["3"] ∧
    add_song [Song.mk "A" "B" 1] none "a" "b" 7 = ([Song.mk "A" "B" 1], none) ∧
    (edit_song [] none "a" "b" 7 = ([], none) ∧
     delete_song [] none "a" "b" = ([], none)) := by
  have h1 := errors_reprompt_and_preserve_state "" ["x"]
    [Song.mk "A" "B" 1] none "a" "b" 7
  have h2 := errors_reprompt_and_preserve_state "abc" ["3"]
    ([] : List Song) none "a" "b" 7
  exact ⟨h1.1 (by decide), h2.2.1 (by decide), h1.2.2.1 (by decide),
         h2.2.2.2 (by decide)⟩

/-- C8: with no data file, `load_songs` returns exactly the five built-in
sample songs in order and writes them to the file; with an existing file,
the decoded contents are returned and the file is left as it was, with no
seeding. -/
theorem load_songs_seeding_behavior :
    load_songs none =
      (some [Song.mk "Shape of You" "Ed Sheeran" 1560,
             Song.mk "Blinding Lights" "The Weeknd" 1780,
             Song.mk "Bad Guy" "Billie Eilish" 1340,
             Song.mk "Dance Monkey" "Tones and I" 1120,
             Song.mk "Levitating" "Dua Lipa" 980],
       some (save_songs sampleSongs)) ∧
    ∀ j : Json, load_songs (some j) = (load_decode j, some j) :=
  ⟨rfl, fun _ => rfl⟩

/-- C9: with the first case-insensitive match `old` sitting between a
match-free portion `pre` and a remainder `post`, `edit_song` replaces only
`old`'s play count: its title and artist, every other song, and the list's
length and order are unchanged. -/
theorem edit_song_updates_only_first_match_plays (songs : List Song)
    (file : Option Json) (title artist : String) (new_plays : Int)
    (pre : List Song) (old : Song) (post : List Song)
    (hsplit : songs = pre ++ old :: post)
    (hpre : ∀ s ∈ pre, songMatches s title artist = false)
    (hold : songMatches old title artist = true) :
    (edit_song songs file title artist new_plays).1 =
      pre ++ Song.mk old.title old.artist new_plays :: post ∧
    (edit_song songs file title artist new_plays).1.length = songs.length := by
  subst hsplit
  have hfind := find_song_split pre old post title artist hpre hold
  have hedit := editFirst_split pre old post title artist new_plays hpre hold
  constructor
  · simp [edit_song, hfind, hedit]
  · simp [edit_song, hfind, hedit]

/-- Witness for C9: editing "a" / "b" in a three-song list rewrites only the
play count of the first match. -/
theorem edit_song_updates_only_first_match_plays_witness :
    ([Song.mk "X" "Y" 1, Song.mk "A" "B" 2, Song.mk "a" "b" 3] : List Song) =
      [Song.mk "X" "Y" 1] ++ Song.mk "A" "B" 2 :: [Song.mk "a" "b" 3] ∧
    (∀ s ∈ [Song.mk "X" "Y" 1], songMatches s "a" "b" = false) ∧
    songMatches (Song.mk "A" "B" 2) "a" "b" = true ∧
    (edit_song [Song.mk "X" "Y" 1, Song.mk "A" "B" 2, Song.mk "a" "b" 3]
        none "a" "b" 9).1 =
      [Song.mk "X" "Y" 1] ++ Song.mk "A" "B" 9 :: [Song.mk "a" "b" 3] ∧
    (edit_song [Song.mk "X" "Y" 1, Song.mk "A" "B" 2, Song.mk "a" "b" 3]
        none "a" "b" 9).1.length =
      ([Song.mk "X" "Y" 1, Song.mk "A" "B" 2, Song.mk "a" "b" 3] : List Song).length := by
  have h := edit_song_updates_only_first_match_plays
    [Song.mk "X" "Y" 1, Song.mk "A" "B" 2, Song.mk "a" "b" 3] none "a" "b" 9
    [Song.mk "X" "Y" 1] (Song.mk "A" "B" 2) [Song.mk "a" "b" 3]
    rfl (by decide) (by decide)
  exact ⟨rfl, by decide, by decide, h.1, h.2⟩

/-- C10: with the first case-insensitive match `old` sitting between a
match-free portion `pre` and a remainder `post` (later duplicates may match
as well), `delete_song` removes exactly that first match and keeps the
relative order of all remaining songs. -/
theorem delete_song_removes_exactly_first_match (songs : List Song)
    (file : Option Json) (title artist : String)
    (pre : List Song) (old : Song) (post : List Song)
    (hsplit : songs = pre ++ old :: post)
    (hpre : ∀ s ∈ pre, songMatches s title artist = false)
    (hold : songMatches old title artist = true) :
    (delete_song songs file title artist).1 = pre ++ post := by
  subst hsplit
  have hfind := find_song_split pre old post title artist hpre hold
  have hne : ∀ s ∈ pre, s ≠ old := by
    intro s hs heq
    have := hpre s hs
    rw [heq, hold] at this
    cases this
  have hrem := pyRemove_split pre old post hne
  simp [delete_song, hfind, hrem]

/-- Witness for C10: deleting "A" / "B" from a list holding two
case-insensitive matches removes only the first one. -/
theorem delete_song_removes_exactly_first_match_witness :
    ([Song.mk "X" "Y" 1, Song.mk "A" "B" 2, Song.mk "a" "b" 3] : List Song) =
      [Song.mk "X" "Y" 1] ++ Song.mk "A" "B" 2 :: [Song.mk "a" "b" 3] ∧
    (∀ s ∈ [Song.mk "X" "Y" 1], songMatches s "A" "B" = false) ∧
    songMatches (Song.mk "A" "B" 2) "A" "B" = true ∧
    (delete_song [Song.mk "X" "Y" 1, Song.mk "A" "B" 2, Song.mk "a" "b" 3]
        none "A" "B").1 =
      [Song.mk "X" "Y" 1] ++ [Song.mk "a" "b" 3] :=
  ⟨rfl, by decide, by decide,
   delete_song_removes_exactly_first_match
     [Song.mk "X" "Y" 1, Song.mk "A" "B" 2, Song.mk "a" "b" 3] none "A" "B"
     [Song.mk "X" "Y" 1] (Song.mk "A" "B" 2) [Song.mk "a" "b" 3]
     rfl (by decide) (by decide)⟩

end PlaylistManager
